import Mathlib

/-!
Verification of the `ioos_qc` config-creator pipeline
(`ioos_qc/config_creator/config_creator.py`).

The Python source is shallowly embedded: dicts become association lists
(Python dicts preserve insertion order, so ordered `List (String × _)` is
faithful), floats become `ℚ` (the arithmetic the claims exercise is exact),
NaN-able numpy arrays become `List (Option ℚ)` with `none` for NaN, and
fallible code returns `Option`/`Except`.
-/

set_option autoImplicit false

namespace IoosQC

/-- A Python-level error, as raised by the embedded code paths. -/
inductive PyError where
  | typeError (msg : String)
  | keyError (key : String)
  | valueError (msg : String)
  | attributeError (attr : String)
  | indexError
  | variableResolutionError (var : String)
  deriving Repr, DecidableEq

/-! ## Dataset registry (`CreatorConfig`)

`CreatorConfig.__init__` normalizes the input into a dict
`name -> {file_path, variables, 3d?}`; we embed the normalized form. -/

/-- One dataset entry of the creator config: file path, the logical-name →
file-variable-name map, and the optional `3d` marker. -/
structure DatasetCfg where
  file_path : String
  vars : List (String × String)
  threeD : Option String := none
  deriving Repr, DecidableEq

/-- The normalized creator config: an insertion-ordered dict
dataset name → entry (`self.config` in `QcConfigCreator`). -/
abbrev CreatorCfg := List (String × DatasetCfg)

/-- Embeds `QcConfigCreator._var2var_in_file`: scan `self.config.items()` in
insertion order; on the first dataset whose `variables` contains `var`,
return `(variables[var], dataset_name)`.  The Python function falls off the
end and implicitly returns `None` when no dataset declares `var`. -/
def var2var_in_file (config : CreatorCfg) (var : String) : Option (String × String) :=
  match config with
  | [] => none
  | (dataset_name, dataset) :: rest =>
    match dataset.vars.lookup var with
    | some v => some (v, dataset_name)
    | none => var2var_in_file rest var

/-! ## Bounding-box padding (`QcConfigCreator.__apply_bbox_pad`) -/

/-- The inner `apply_pad(val, lat_or_lon, min_or_max)` closure of
`__apply_bbox_pad`, with the captured `pad` made explicit.  The longitude
branch distinguishes `val <= 0` from `val > 0` exactly as the source does
(the four longitude branches are pairwise redundant, but we keep them). -/
def apply_pad (pad : ℚ) (val : ℚ) (lat_or_lon : String) (min_or_max : String) : ℚ :=
  if lat_or_lon = "lat" then
    if min_or_max = "min" then max (-90) (val - pad)
    else min 90 (val + pad)
  else
    if val ≤ 0 ∧ min_or_max = "min" then max (-180) (val - pad)
    else if val ≤ 0 ∧ min_or_max = "max" then min 180 (val + pad)
    else if 0 < val ∧ min_or_max = "min" then max (-180) (val - pad)
    else min 180 (val + pad)

/-- A bounding box `(xmin, ymin, xmax, ymax)` in degrees (the Python code
passes it around as a 4-element list). -/
structure Bbox where
  xmin : ℚ
  ymin : ℚ
  xmax : ℚ
  ymax : ℚ
  deriving Repr, DecidableEq

/-- Embeds `QcConfigCreator.__apply_bbox_pad`: build a new box from the four padded
components (`new_bbox = []; new_bbox.append(...)×4`); the input box is not
mutated. -/
def apply_bbox_pad (bbox : Bbox) (pad : ℚ) : Bbox :=
  { xmin := apply_pad pad bbox.xmin "lon" "min"
    ymin := apply_pad pad bbox.ymin "lat" "min"
    xmax := apply_pad pad bbox.xmax "lon" "max"
    ymax := apply_pad pad bbox.ymax "lat" "max" }

/-! ## Expression validation (`QcVariableConfig`)

`_validate_fx` splits the expression on single spaces (`input_fx.split(' ')`)
and accepts each token iff `float(token)` succeeds or the token is one of the
allowed stats / operators / groupings; otherwise it raises `ValueError`
naming the token.  `float` is Python's built-in string-to-float conversion,
modelled below (optional surrounding whitespace, optional sign, `inf` /
`infinity` / `nan` case-insensitively, or a decimal literal with optional
fraction, exponent, and underscores between digits). -/

/-- Characters Python strips around a `float()` argument. -/
def pyWhitespace (c : Char) : Bool :=
  c = ' ' || c = '\t' || c = '\n' || c = '\x0d' || c = '\x0b' || c = '\x0c'

/-- Consume `(('_')? digit)*` greedily (underscores only between digits). -/
def digitsTail : List Char → List Char
  | '_' :: c :: rest => if c.isDigit then digitsTail rest else '_' :: c :: rest
  | c :: rest => if c.isDigit then digitsTail rest else c :: rest
  | [] => []

/-- Consume a digit group `digit (('_')? digit)*`; `none` if no leading digit. -/
def parseDigits : List Char → Option (List Char)
  | c :: rest => if c.isDigit then some (digitsTail rest) else none
  | [] => none

/-- Accept an optional exponent part (`(e|E) (+|-)? digits`) ending the
input; the empty rest is accepted (no exponent). -/
def expTailOk (cs : List Char) : Bool :=
  match cs with
  | [] => true
  | 'e' :: rest =>
    (match (match rest with | '+' :: t => parseDigits t | '-' :: t => parseDigits t | _ => parseDigits rest) with
     | some [] => true
     | _ => false)
  | 'E' :: rest =>
    (match (match rest with | '+' :: t => parseDigits t | '-' :: t => parseDigits t | _ => parseDigits rest) with
     | some [] => true
     | _ => false)
  | _ => false

/-- Accept a decimal number (after an optional sign has been removed):
`digits [. [digits]] [exp]` or `. digits [exp]`. -/
def pyFloatNumber (cs : List Char) : Bool :=
  match cs with
  | '.' :: rest =>
    (match parseDigits rest with
     | some r => expTailOk r
     | none => false)
  | _ =>
    match parseDigits cs with
    | some ('.' :: r2) =>
      (match parseDigits r2 with
       | some r3 => expTailOk r3
       | none => expTailOk r2)
    | some r => expTailOk r
    | none => false

/-- Model of Python's `float(s)` succeeding on the string `s`. -/
def pyFloatAccepts (s : String) : Bool :=
  let cs := ((s.data.dropWhile pyWhitespace).reverse.dropWhile pyWhitespace).reverse
  let body := match cs with
    | '+' :: t => t
    | '-' :: t => t
    | _ => cs
  let low := body.map Char.toLower
  if low = "inf".data || low = "infinity".data || low = "nan".data then true
  else pyFloatNumber body

/-- Embeds `QcVariableConfig.allowed_stats`. -/
def allowed_stats : List String := ["min", "max", "mean", "std"]

/-- Embeds `QcVariableConfig.allowed_operators`. -/
def allowed_operators : List String := ["+", "-", "*", "/"]

/-- Embeds `QcVariableConfig.allowed_groupings`. -/
def allowed_groupings : List String := ["(", ")"]

/-- Python `s.split(' ')` on the character list: split at every single
space, keeping empty pieces (`''.split(' ') == ['']`,
`'a  b'.split(' ') == ['a', '', 'b']`). -/
def splitOnSpace : List Char → List (List Char)
  | [] => [[]]
  | ' ' :: rest => [] :: splitOnSpace rest
  | c :: rest =>
    match splitOnSpace rest with
    | t :: ts => (c :: t) :: ts
    | [] => [[c]]

/-- Python `input_fx.split(' ')` as a list of strings. -/
def split_tokens (s : String) : List String :=
  (splitOnSpace s.data).map (fun cs => String.mk cs)

/-- The `ValueError` raised by `_validate_fx`: its message names the
offending token and the (parameter) name passed as `test_name`. -/
structure FxError where
  token : String
  test_name : String
  deriving Repr, DecidableEq

/-- The token loop of `_validate_fx`: for each token, try `float(token)`;
on failure, raise unless the token is an allowed stat/operator/grouping. -/
def validate_tokens (test_name : String) : List String → Except FxError Unit
  | [] => .ok ()
  | token :: rest =>
    if pyFloatAccepts token then validate_tokens test_name rest
    else if token ∉ allowed_stats ∧ token ∉ allowed_operators ∧ token ∉ allowed_groupings then
      .error ⟨token, test_name⟩
    else validate_tokens test_name rest

/-- Embeds `QcVariableConfig._validate_fx`: tokenize on single spaces and validate
every token. -/
def validate_fx (input_fx : String) (test_name : String) : Except FxError Unit :=
  validate_tokens test_name (split_tokens input_fx)

/-- The inner parameter loop of `QcVariableConfig.__init__`: parameters named
`bbox` are skipped (`continue`); every other parameter's value is validated
by `_validate_fx` (the parameter name is passed as `test_name`). -/
def validate_params : List (String × String) → Except FxError Unit
  | [] => .ok ()
  | (test_name, test_def) :: rest =>
    if test_name = "bbox" then validate_params rest
    else
      match validate_fx test_def test_name with
      | .ok () => validate_params rest
      | .error e => .error e

/-- The outer test loop of `QcVariableConfig.__init__` over
`config['tests']`. -/
def validate_tests : List (String × List (String × String)) → Except FxError Unit
  | [] => .ok ()
  | (_, params) :: rest =>
    match validate_params params with
    | .ok () => validate_tests rest
    | .error e => .error e

/-- A token the validator accepts: a Python float literal, a stat name, an
operator, or a parenthesis. -/
def token_allowed (t : String) : Prop :=
  pyFloatAccepts t = true ∨ t ∈ allowed_stats ∨ t ∈ allowed_operators ∨ t ∈ allowed_groupings

instance token_allowed_dec : DecidablePred token_allowed := by
  intro t
  unfold token_allowed
  infer_instance

/-! ## Theorems -/

/-- C7: for every logical variable name contained in at least one registered
dataset's variable map, `_var2var_in_file` returns the file-local name and
dataset name of the first dataset, in registry insertion order, whose
variable map contains the logical name — deterministically, even when later
datasets declare the same logical name. -/
theorem c7_resolution_first_match (pre post : List (String × DatasetCfg))
    (name : String) (ds : DatasetCfg) (var fvar : String)
    (hpre : ∀ p ∈ pre, p.2.vars.lookup var = none)
    (hds : ds.vars.lookup var = some fvar) :
    var2var_in_file (pre ++ (name, ds) :: post) var = some (fvar, name) := by
  induction pre with
  | nil => simp [var2var_in_file, hds]
  | cons p rest ih =>
    have hp : p.2.vars.lookup var = none := hpre p (List.mem_cons_self p rest)
    have hrest : ∀ q ∈ rest, q.2.vars.lookup var = none :=
      fun q hq => hpre q (List.mem_cons_of_mem p hq)
    simpa [var2var_in_file, hp] using ih hrest

/-- C7 witness: two datasets both declare `temp`; resolution returns the
first-registered one. -/
theorem c7_resolution_first_match_witness :
    var2var_in_file
      [("d1", { file_path := "a.nc", vars := [("temp", "T1")] }),
       ("d2", { file_path := "b.nc", vars := [("temp", "T2")] })] "temp"
      = some ("T1", "d1") := by
  have h := c7_resolution_first_match []
    [("d2", { file_path := "b.nc", vars := [("temp", "T2")] })]
    "d1" { file_path := "a.nc", vars := [("temp", "T1")] } "temp" "T1"
    (by intro p hp; simp at hp) (by rfl)
  simpa using h

/-- C4: padding a bounding box with a positive pad returns exactly
`(max (-180) (xmin - pad), max (-90) (ymin - pad), min 180 (xmax + pad),
min 90 (ymax + pad))`, and for a box inside the globe the new box contains
the old one (monotonicity). -/
theorem c4_pad_formula_and_monotone (b : Bbox) (pad : ℚ) (hpad : 0 < pad)
    (h1 : -180 ≤ b.xmin) (h2 : -90 ≤ b.ymin) (h3 : b.xmax ≤ 180) (h4 : b.ymax ≤ 90) :
    apply_bbox_pad b pad =
      ⟨max (-180) (b.xmin - pad), max (-90) (b.ymin - pad),
       min 180 (b.xmax + pad), min 90 (b.ymax + pad)⟩ ∧
    (apply_bbox_pad b pad).xmin ≤ b.xmin ∧
    (apply_bbox_pad b pad).ymin ≤ b.ymin ∧
    b.xmax ≤ (apply_bbox_pad b pad).xmax ∧
    b.ymax ≤ (apply_bbox_pad b pad).ymax := by
  have hlonmin : ∀ v : ℚ, apply_pad pad v "lon" "min" = max (-180) (v - pad) := by
    intro v
    by_cases hv : v ≤ 0
    · simp [apply_pad, hv]
    · have hv2 : 0 < v := lt_of_not_le hv
      simp [apply_pad, hv, hv2]
  have hlonmax : ∀ v : ℚ, apply_pad pad v "lon" "max" = min 180 (v + pad) := by
    intro v
    by_cases hv : v ≤ 0 <;> simp [apply_pad, hv]
  have heq : apply_bbox_pad b pad =
      ⟨max (-180) (b.xmin - pad), max (-90) (b.ymin - pad),
       min 180 (b.xmax + pad), min 90 (b.ymax + pad)⟩ := by
    have hlat1 : apply_pad pad b.ymin "lat" "min" = max (-90) (b.ymin - pad) := by
      simp [apply_pad]
    have hlat2 : apply_pad pad b.ymax "lat" "max" = min 90 (b.ymax + pad) := by
      simp [apply_pad]
    simp [apply_bbox_pad, hlonmin, hlonmax, hlat1, hlat2]
  refine ⟨heq, ?_, ?_, ?_, ?_⟩ <;> rw [heq]
  · exact max_le h1 (by linarith)
  · exact max_le h2 (by linarith)
  · exact le_min h3 (by linarith)
  · exact le_min h4 (by linarith)

/-! ## Statistics (`QcConfigCreator._get_stats`)

A numpy array slice is embedded as `List (Option ℚ)`: `none` is a NaN (or
masked) entry, `some q` a finite value.  `np.nanmin/nanmax/nanmean/nanstd`
reduce over the non-NaN entries; on an all-NaN input they emit a
`RuntimeWarning` and return the NaN sentinel (`none` here) — they do not
raise. -/

/-- A numpy array of floats with NaNs. -/
abbrev NArr := List (Option ℚ)

/-- The non-NaN entries of an array. -/
def notNaN (xs : NArr) : List ℚ := xs.filterMap id

/-- Embeds `np.nansum`: sum of the non-NaN entries (`0` when all entries are NaN). -/
def nansum (xs : NArr) : ℚ := (notNaN xs).sum

/-- Embeds `np.nanmin`: minimum of the non-NaN entries, NaN when there are none. -/
def nanmin (xs : NArr) : Option ℚ := (notNaN xs).min?

/-- Embeds `np.nanmax`: maximum of the non-NaN entries, NaN when there are none. -/
def nanmax (xs : NArr) : Option ℚ := (notNaN xs).max?

/-- Embeds `np.nanmean`: mean of the non-NaN entries, NaN when there are none. -/
def nanmean (xs : NArr) : Option ℚ :=
  let v := notNaN xs
  if v.length = 0 then none else some (v.sum / v.length)

/-- The variance (mean squared deviation, `ddof = 0` as in `np.nanstd`'s
default) of the non-NaN entries; NaN when there are none. -/
def nanvar (xs : NArr) : Option ℚ :=
  let v := notNaN xs
  if v.length = 0 then none
  else
    let m := v.sum / v.length
    some ((v.map (fun x => (x - m) ^ 2)).sum / v.length)

/-- Embeds `np.nanstd`: square root of `nanvar` (numpy computes this in floating
point; we take the exact real square root of the exact variance). -/
noncomputable def nanstd (xs : NArr) : Option ℝ :=
  (nanvar xs).map (fun q => Real.sqrt (q : ℝ))

/-- The stats snapshot `_get_stats` builds:
`{'min': np.nanmin(subset), 'max': ..., 'mean': ..., 'std': ...}`. -/
structure StatsSnapshot where
  min : Option ℚ
  max : Option ℚ
  mean : Option ℚ
  std : Option ℝ

/-- Embeds `QcConfigCreator._get_stats`, applied to the extracted subset. -/
noncomputable def get_stats (subset : NArr) : StatsSnapshot :=
  { min := nanmin subset
    max := nanmax subset
    mean := nanmean subset
    std := nanstd subset }

/-! ## The adaptive subset loop (`QcConfigCreator._get_subset`)

`_get_subset` recomputes the lat/lon masks from the bounding box and calls
`__get_daily_interp_subset` (xarray indexing, daily resample/interpolation,
time-slice selection — external library code); the loop observes the
result only through `np.nansum(subset)`.  We abstract that whole
data-extraction pipeline as a function `data : Bbox → NArr` (the variable,
time slice and depth are fixed for the duration of the loop) and embed the
`while np.nansum(subset) == 0` loop with explicit fuel: `none` means the
loop is still running after the given number of iterations, so
`∀ n, ... = none` is divergence of the source loop. -/

def get_subset_fuel (data : Bbox → NArr) (pad_delta : ℚ) : Nat → Bbox → Option NArr
  | 0, _ => none
  | n + 1, bbox =>
    let subset := data bbox
    if nansum subset = 0 then
      get_subset_fuel data pad_delta n (apply_bbox_pad bbox pad_delta)
    else some subset

/-! ## Dates, loaded datasets, the creator (`QcConfigCreator`) -/

/-- A calendar date (year, month, day); `_get_time_range` formats these as
`f"{year}-{month}-{day}"` strings, which we keep structural. -/
structure Date where
  year : Nat
  month : Nat
  day : Nat
  deriving Repr, DecidableEq

/-- The part of an `xr.load_dataset` result the claims observe: the time
coordinate (`ds['time.year'][0]` is the first entry's year). -/
structure LoadedDataset where
  times : List Date
  deriving Repr, DecidableEq

/-- The `QcConfigCreator.__init__` state: `self.config`, `self.datasets`
(eagerly loaded, keyed like the config) and `self.dataset_years`. -/
structure Creator where
  config : CreatorCfg
  datasets : List (String × LoadedDataset)
  dataset_years : List (String × Nat)

/-- Embeds `QcConfigCreator._determine_dataset_years`:
`years[name] = dataset['time.year'][0].data` for each dataset — an
`IndexError` if a dataset has an empty time coordinate. -/
def determine_dataset_years : List (String × LoadedDataset) → Except PyError (List (String × Nat))
  | [] => .ok []
  | (n, ds) :: rest =>
    match ds.times.head? with
    | none => .error .indexError
    | some t =>
      match determine_dataset_years rest with
      | .ok ys => .ok ((n, t.year) :: ys)
      | .error e => .error e

/-- Embeds `QcConfigCreator.var2dataset`: `_, dataset_name = self._var2var_in_file(var)`
— when `_var2var_in_file` returned `None`, the tuple unpacking raises
`TypeError: cannot unpack non-iterable NoneType object`; otherwise the
dataset is fetched from `self.datasets`. -/
def var2dataset (c : Creator) (var : String) : Except PyError (String × LoadedDataset) :=
  match var2var_in_file c.config var with
  | none => .error (.typeError "cannot unpack non-iterable NoneType object")
  | some (_, dataset_name) =>
    match c.datasets.lookup dataset_name with
    | some ds => .ok (dataset_name, ds)
    | none => .error (.keyError dataset_name)

/-- Returns `true` iff the result is the `VariableResolutionError` of the spec's
error taxonomy (the `PyError.variableResolutionError` constructor exists
only so the spec's claim is statable; no code path of the source
constructs it). -/
def is_var_resolution_error {α : Type} : Except PyError α → Bool
  | .error (.variableResolutionError _) => true
  | _ => false

/-- Embeds `QcConfigCreator._get_time_range`: resolve the variable's dataset
(`_, name = self._var2var_in_file(var)` — same `TypeError` on `None`), read
`year = self.dataset_years[name]`, and return
`slice(f"{year}-{start.month}-{start.day}", f"{year}-{end.month}-{end.day}")`:
the deployment's month/day with the dataset's reference year substituted,
end label passed as-is (no exclusivity adjustment). -/
def get_time_range (c : Creator) (var : String) (time_range : Date × Date) :
    Except PyError (Date × Date) :=
  match var2var_in_file c.config var with
  | none => .error (.typeError "cannot unpack non-iterable NoneType object")
  | some (_, name) =>
    match c.dataset_years.lookup name with
    | none => .error (.keyError name)
    | some year =>
      .ok (⟨year, time_range.1.month, time_range.1.day⟩,
           ⟨year, time_range.2.month, time_range.2.day⟩)

/-- Lexicographic order on dates. -/
def dateLe (a b : Date) : Bool :=
  if a.year ≠ b.year then a.year ≤ b.year
  else if a.month ≠ b.month then a.month ≤ b.month
  else a.day ≤ b.day

/-- Modelled from the spec: the slice returned by `_get_time_range` is
consumed by xarray's label-based `.sel(time=slice(start, stop))`, which the
spec describes as inclusive of both endpoints ("End time is exclusive per
deployment-window convention but inclusive in the underlying slice
construction").  The xarray library itself is not part of this repository. -/
def sel_time_slice (times : List Date) (sl : Date × Date) : List Date :=
  times.filter (fun t => dateLe sl.1 t && dateLe t sl.2)

/-! ## Threshold assembly (`QcConfigCreator._create_test_section`)

The per-test builders look up the test's parameters in
`variable_config['tests'][test_name]` (a `KeyError` when absent) and pass
formula strings to the external `fx_parser.eval_fx(fx, stats)`.  `eval_fx`
is an external collaborator (`ioos_qc/config_creator/fx_parser.py`, not
among the given sources), so it is kept abstract: an arbitrary function
`evalFx` over an arbitrary stats type. -/

/-- A parameter value in a test definition: a formula string, or the
`location_test` bbox literal array. -/
inductive ParamVal where
  | str (s : String)
  | arr (l : List ℚ)
  deriving Repr, DecidableEq

/-- A value of an assembled test section: an evaluated number, a list of
evaluated numbers (the span arrays), or a parameter passed through
verbatim (the `location_test` bbox). -/
inductive QcValue where
  | num (q : ℚ)
  | nums (l : List ℚ)
  | raw (v : ParamVal)
  deriving Repr, DecidableEq

/-- Embeds `variable_config['tests'][test_name][key]`: `KeyError` when absent. -/
def get_test_param (params : List (String × ParamVal)) (key : String) :
    Except PyError ParamVal :=
  match params.lookup key with
  | some v => .ok v
  | none => .error (.keyError key)

/-- Application of the external `eval_fx` to a looked-up parameter value:
`eval_fx` processes a formula string; handing it the literal bbox array
would be a dynamic type error (no dispatch path of the source does so). -/
def eval_param {σ : Type} (evalFx : String → σ → ℚ) (stats : σ) :
    ParamVal → Except PyError ℚ
  | .str s => .ok (evalFx s stats)
  | .arr _ => .error (.typeError "eval_fx expects a formula string")

/-- Embeds `QcConfigCreator.__create_spike_section`. -/
def create_spike_section {σ : Type} (evalFx : String → σ → ℚ)
    (params : List (String × ParamVal)) (stats : σ) :
    Except PyError (List (String × QcValue)) := do
  let v1 ← get_test_param params "suspect_threshold"
  let suspect_threshold ← eval_param evalFx stats v1
  let v2 ← get_test_param params "fail_threshold"
  let fail_threshold ← eval_param evalFx stats v2
  return [("suspect_threshold", .num suspect_threshold),
          ("fail_threshold", .num fail_threshold)]

/-- Embeds `QcConfigCreator.__create_flat_line_section`. -/
def create_flat_line_section {σ : Type} (evalFx : String → σ → ℚ)
    (params : List (String × ParamVal)) (stats : σ) :
    Except PyError (List (String × QcValue)) := do
  let v1 ← get_test_param params "suspect_threshold"
  let suspect_threshold ← eval_param evalFx stats v1
  let v2 ← get_test_param params "fail_threshold"
  let fail_threshold ← eval_param evalFx stats v2
  let v3 ← get_test_param params "tolerance"
  let tolerance ← eval_param evalFx stats v3
  return [("suspect_threshold", .num suspect_threshold),
          ("fail_threshold", .num fail_threshold),
          ("tolerance", .num tolerance)]

/-- Embeds `QcConfigCreator.__create_location_section`: the bbox parameter is
returned verbatim, never evaluated. -/
def create_location_section (params : List (String × ParamVal)) :
    Except PyError (List (String × QcValue)) := do
  let b ← get_test_param params "bbox"
  return [("bbox", .raw b)]

/-- Embeds `QcConfigCreator.__create_rate_of_change_section`. -/
def create_rate_of_change_section {σ : Type} (evalFx : String → σ → ℚ)
    (params : List (String × ParamVal)) (stats : σ) :
    Except PyError (List (String × QcValue)) := do
  let v ← get_test_param params "threshold"
  let threshold ← eval_param evalFx stats v
  return [("threshold", .num threshold)]

/-- Embeds `QcConfigCreator.__create_span_section`. -/
def create_span_section {σ : Type} (evalFx : String → σ → ℚ)
    (params : List (String × ParamVal)) (stats : σ) :
    Except PyError (List (String × QcValue)) := do
  let v1 ← get_test_param params "suspect_min"
  let suspect_min ← eval_param evalFx stats v1
  let v2 ← get_test_param params "suspect_max"
  let suspect_max ← eval_param evalFx stats v2
  let v3 ← get_test_param params "fail_min"
  let fail_min ← eval_param evalFx stats v3
  let v4 ← get_test_param params "fail_max"
  let fail_max ← eval_param evalFx stats v4
  return [("suspect_span", .nums [suspect_min, suspect_max]),
          ("fail_span", .nums [fail_min, fail_max])]

/-- Embeds `QcConfigCreator._create_test_section`: dispatch on the exact test-name
string; every unrecognized name falls through to the span builder. -/
def create_test_section {σ : Type} (evalFx : String → σ → ℚ) (test_name : String)
    (params : List (String × ParamVal)) (stats : σ) :
    Except PyError (List (String × QcValue)) :=
  if test_name = "spike_test" then create_spike_section evalFx params stats
  else if test_name = "location_test" then create_location_section params
  else if test_name = "rate_of_change_test" then create_rate_of_change_section evalFx params stats
  else if test_name = "flat_line_test" then create_flat_line_section evalFx params stats
  else create_span_section evalFx params stats

/-! ## `to_json`

`def to_json(qc_config, out_file=None)` serializes with `json.dumps`
when `out_file` is falsy; otherwise it opens `out_file` for writing and
calls `json.dump(outfile, qc_config)` — the two arguments are swapped
(`json.dump(obj, fp)` expects the object first), so `json.dump` tries to
serialize the file object and raises `TypeError` before writing anything. -/

/-- A Python value reaching the `json` routines: JSON-able data, or the
file handle an `open(out_file, 'w')` produced. -/
inductive PyVal where
  | pynull
  | pybool (b : Bool)
  | pystr (s : String)
  | pynum (q : ℚ)
  | pylist (l : List PyVal)
  | pydict (l : List (String × PyVal))
  | pyfile (path : String)

mutual

/-- Embeds `json.dumps(v)`: the serialized text, or the `TypeError` raised on a
non-serializable object (string escaping and float formatting are
abstracted; a file object is not JSON serializable). -/
def dumps : PyVal → Except PyError String
  | .pynull => .ok "null"
  | .pybool b => .ok (if b then "true" else "false")
  | .pystr s => .ok ("\"" ++ s ++ "\"")
  | .pynum q => .ok (toString q)
  | .pylist l =>
    (match dumpsList l with
     | .ok s => .ok ("[" ++ s ++ "]")
     | .error e => .error e)
  | .pydict l =>
    (match dumpsDict l with
     | .ok s => .ok ("\x7b" ++ s ++ "\x7d")
     | .error e => .error e)
  | .pyfile _ => .error (.typeError "Object of type TextIOWrapper is not JSON serializable")

/-- Serialize list elements, joined by `", "`. -/
def dumpsList : List PyVal → Except PyError String
  | [] => .ok ""
  | [v] => dumps v
  | v :: rest =>
    (match dumps v, dumpsList rest with
     | .ok a, .ok b => .ok (a ++ ", " ++ b)
     | .error e, _ => .error e
     | _, .error e => .error e)

/-- Serialize dict entries, joined by `", "`. -/
def dumpsDict : List (String × PyVal) → Except PyError String
  | [] => .ok ""
  | [(k, v)] =>
    (match dumps v with
     | .ok a => .ok ("\"" ++ k ++ "\": " ++ a)
     | .error e => .error e)
  | (k, v) :: rest =>
    (match dumps v, dumpsDict rest with
     | .ok a, .ok b => .ok ("\"" ++ k ++ "\": " ++ a ++ ", " ++ b)
     | .error e, _ => .error e
     | _, .error e => .error e)

end

/-- Embeds `json.dump(obj, fp)`: serialize `obj` and stream the text to
`fp.write`.  The result records the chunks written, tagged with the object
they were written to (serialization of `obj` fails before anything is
written; an `fp` without a `write` method raises `AttributeError`).
Chunk-by-chunk streaming is collapsed into one write — irrelevant here
because the swapped call's `obj` is the file handle, which fails
serialization immediately. -/
def json_dump (obj fp : PyVal) : Except PyError Unit × List (PyVal × String) :=
  match dumps obj with
  | .error e => (.error e, [])
  | .ok s =>
    match fp with
    | .pyfile p => (.ok (), [(.pyfile p, s)])
    | _ => (.error (.attributeError "write"), [])

/-- Embeds `to_json(qc_config, out_file)`.  The returned pair is the Python return
value (or raised error) together with the text that reached the opened
output file.  `if out_file:` is Python truthiness, so the empty string
falls through to the `json.dumps` branch; in the write branch the
arguments of `json.dump` are swapped exactly as in the source, and the
file handle (`.pyfile path`) is the serialized object, not the stream. -/
def to_json (qc_config : PyVal) (out_file : Option String) :
    Except PyError (Option String) × List String :=
  match out_file with
  | some path =>
    if path = "" then
      (match dumps qc_config with
       | .ok s => (.ok (some s), [])
       | .error e => (.error e, []))
    else
      (match json_dump (.pyfile path) qc_config with
       | (.ok _, ws) =>
         (.ok none,
          ws.filterMap (fun w =>
            match w.1 with
            | .pyfile q => if q = path then some w.2 else none
            | _ => none))
       | (.error e, ws) =>
         (.error e,
          ws.filterMap (fun w =>
            match w.1 with
            | .pyfile q => if q = path then some w.2 else none
            | _ => none)))
  | none =>
    (match dumps qc_config with
     | .ok s => (.ok (some s), [])
     | .error e => (.error e, []))

/-! ### Expression-validation lemmas (C2, C9) -/

theorem validate_tokens_cons (tn t : String) (rest : List String) :
    validate_tokens tn (t :: rest) =
      if token_allowed t then validate_tokens tn rest else .error ⟨t, tn⟩ := by
  by_cases h1 : pyFloatAccepts t
  · have hta : token_allowed t := Or.inl h1
    simp [validate_tokens, h1, hta]
  · by_cases h2 : t ∈ allowed_stats
    · have hta : token_allowed t := Or.inr (Or.inl h2)
      simp [validate_tokens, h1, h2, hta]
    · by_cases h3 : t ∈ allowed_operators
      · have hta : token_allowed t := Or.inr (Or.inr (Or.inl h3))
        simp [validate_tokens, h1, h2, h3, hta]
      · by_cases h4 : t ∈ allowed_groupings
        · have hta : token_allowed t := Or.inr (Or.inr (Or.inr h4))
          simp [validate_tokens, h1, h2, h3, h4, hta]
        · have hta : ¬ token_allowed t := by
            simp [token_allowed, h1, h2, h3, h4]
          simp [validate_tokens, h1, h2, h3, h4, hta]

theorem validate_tokens_ok_iff (tn : String) (ts : List String) :
    validate_tokens tn ts = .ok () ↔ ∀ t ∈ ts, token_allowed t := by
  induction ts with
  | nil => simp [validate_tokens]
  | cons t rest ih =>
    rw [validate_tokens_cons]
    by_cases hta : token_allowed t
    · simp [hta, ih]
    · simp [hta]

theorem validate_tokens_error (tn : String) (ts : List String) (e : FxError)
    (h : validate_tokens tn ts = .error e) :
    ¬ token_allowed e.token ∧ e.token ∈ ts ∧ e.test_name = tn := by
  induction ts with
  | nil => simp [validate_tokens] at h
  | cons t rest ih =>
    rw [validate_tokens_cons] at h
    by_cases hta : token_allowed t
    · rw [if_pos hta] at h
      obtain ⟨h1, h2, h3⟩ := ih h
      exact ⟨h1, List.mem_cons_of_mem t h2, h3⟩
    · rw [if_neg hta] at h
      have he : e = ⟨t, tn⟩ := by
        cases h
        rfl
      subst he
      exact ⟨hta, List.mem_cons_self t rest, rfl⟩

theorem validate_params_ok_iff (ps : List (String × String)) :
    validate_params ps = .ok () ↔
      ∀ pe ∈ ps, pe.1 ≠ "bbox" → ∀ tok ∈ split_tokens pe.2, token_allowed tok := by
  induction ps with
  | nil => simp [validate_params]
  | cons pe rest ih =>
    obtain ⟨pname, pval⟩ := pe
    by_cases hb : pname = "bbox"
    · subst hb
      simp [validate_params, ih]
    · simp only [validate_params, if_neg hb]
      cases hfx : validate_fx pval pname with
      | ok u =>
        cases u
        have hall : ∀ tok ∈ split_tokens pval, token_allowed tok :=
          (validate_tokens_ok_iff pname (split_tokens pval)).1 hfx
        simp only [ih, List.forall_mem_cons]
        constructor
        · intro h
          exact ⟨fun _ => hall, h⟩
        · intro h
          exact h.2
      | error e =>
        have hbad := validate_tokens_error pname (split_tokens pval) e hfx
        constructor
        · intro hc
          cases hc
        · intro hall
          have := hall (pname, pval) (List.mem_cons_self _ _) hb e.token hbad.2.1
          exact absurd this hbad.1

theorem validate_params_error (ps : List (String × String)) (e : FxError)
    (h : validate_params ps = .error e) :
    ¬ token_allowed e.token ∧
      ∃ pe ∈ ps, pe.1 ≠ "bbox" ∧ e.token ∈ split_tokens pe.2 ∧ e.test_name = pe.1 := by
  induction ps with
  | nil => simp [validate_params] at h
  | cons pe rest ih =>
    obtain ⟨pname, pval⟩ := pe
    by_cases hb : pname = "bbox"
    · subst hb
      simp only [validate_params, if_pos rfl] at h
      obtain ⟨h1, q, hq, h2⟩ := ih h
      exact ⟨h1, q, List.mem_cons_of_mem _ hq, h2⟩
    · simp only [validate_params, if_neg hb] at h
      cases hfx : validate_fx pval pname with
      | ok u =>
        cases u
        rw [hfx] at h
        obtain ⟨h1, q, hq, h2⟩ := ih h
        exact ⟨h1, q, List.mem_cons_of_mem _ hq, h2⟩
      | error e2 =>
        rw [hfx] at h
        have he : e2 = e := by
          cases h
          rfl
        subst he
        have hbad := validate_tokens_error pname (split_tokens pval) e2 hfx
        exact ⟨hbad.1, (pname, pval), List.mem_cons_self _ _, hb, hbad.2.1, hbad.2.2⟩

theorem validate_tests_ok_iff (ts : List (String × List (String × String))) :
    validate_tests ts = .ok () ↔
      ∀ tp ∈ ts, ∀ pe ∈ tp.2, pe.1 ≠ "bbox" →
        ∀ tok ∈ split_tokens pe.2, token_allowed tok := by
  induction ts with
  | nil => simp [validate_tests]
  | cons tp rest ih =>
    obtain ⟨tname, params⟩ := tp
    simp only [validate_tests]
    cases hp : validate_params params with
    | ok u =>
      cases u
      have hall := (validate_params_ok_iff params).1 hp
      simp only [ih, List.forall_mem_cons]
      constructor
      · intro h
        exact ⟨hall, h⟩
      · intro h
        exact h.2
    | error e =>
      have hbad := validate_params_error params e hp
      constructor
      · intro hc
        cases hc
      · intro hall
        obtain ⟨h1, q, hq, hnb, htok, _⟩ := hbad
        exact absurd (hall (tname, params) (List.mem_cons_self _ _) q hq hnb e.token htok) h1

theorem validate_tests_error (ts : List (String × List (String × String))) (e : FxError)
    (h : validate_tests ts = .error e) :
    ¬ token_allowed e.token ∧
      ∃ tp ∈ ts, ∃ pe ∈ tp.2, pe.1 ≠ "bbox" ∧
        e.token ∈ split_tokens pe.2 ∧ e.test_name = pe.1 := by
  induction ts with
  | nil => simp [validate_tests] at h
  | cons tp rest ih =>
    obtain ⟨tname, params⟩ := tp
    simp only [validate_tests] at h
    cases hp : validate_params params with
    | ok u =>
      cases u
      rw [hp] at h
      obtain ⟨h1, q, hq, hrest⟩ := ih h
      exact ⟨h1, q, List.mem_cons_of_mem _ hq, hrest⟩
    | error e2 =>
      rw [hp] at h
      have he : e2 = e := by
        cases h
        rfl
      subst he
      obtain ⟨h1, q, hq, hrest⟩ := validate_params_error params e2 hp
      exact ⟨h1, (tname, params), List.mem_cons_self _ _, q, hq, hrest⟩

theorem validate_params_bbox_skip (s : String) (ps1 ps2 : List (String × String)) :
    validate_params (ps1 ++ ("bbox", s) :: ps2) = validate_params (ps1 ++ ps2) := by
  induction ps1 with
  | nil => simp [validate_params]
  | cons pe rest ih =>
    obtain ⟨pname, pval⟩ := pe
    by_cases hb : pname = "bbox"
    · simp [validate_params, hb, ih]
    · simp only [List.cons_append, validate_params, if_neg hb]
      cases hfx : validate_fx pval pname <;> simp [ih]

/-- C2 counterexample: the config `{tests: {gross_range_test: {bbox:
"domain $ bad"}}}` contains a test-parameter expression with the
disallowed token `$`, yet construction-time validation accepts it (the
claim says any expression with a disallowed token fails construction). -/
theorem c2_counterexample_bbox_param_accepted :
    validate_tests [("gross_range_test", [("bbox", "domain $ bad")])] = .ok () ∧
    ¬ token_allowed "$" ∧ "$" ∈ split_tokens "domain $ bad" :=
  ⟨rfl, by decide, by decide⟩

/-- C2 (amended): construction-time validation succeeds iff, for every test,
every parameter not named `bbox` has an expression all of whose
space-separated tokens are float literals, stat names, operators, or
parentheses; and when it fails, the raised error names an offending
(disallowed) token of some non-`bbox` parameter together with that
parameter's name. -/
theorem c2_validation_characterization (ts : List (String × List (String × String))) :
    (validate_tests ts = .ok () ↔
      ∀ tp ∈ ts, ∀ pe ∈ tp.2, pe.1 ≠ "bbox" →
        ∀ tok ∈ split_tokens pe.2, token_allowed tok) ∧
    (∀ e, validate_tests ts = .error e →
      ¬ token_allowed e.token ∧
        ∃ tp ∈ ts, ∃ pe ∈ tp.2, pe.1 ≠ "bbox" ∧
          e.token ∈ split_tokens pe.2 ∧ e.test_name = pe.1) :=
  ⟨validate_tests_ok_iff ts, fun e he => validate_tests_error ts e he⟩

/-- C2 witness: on the config `{tests: {t: {suspect_min: "min $ max"}}}`
validation fails with an error naming the disallowed token `$`. -/
theorem c2_validation_characterization_witness : ¬ token_allowed "$" :=
  ((c2_validation_characterization [("t", [("suspect_min", "min $ max")])]).2
    ⟨"$", "suspect_min"⟩ rfl).1

/-- C9: a parameter named `bbox` is skipped by construction-time expression
validation in every test family: deleting (or inserting) a `bbox` parameter
with an arbitrary string value never changes the validation outcome, and a
test whose only parameter is a `bbox` with an arbitrary string value always
validates. -/
theorem c9_bbox_param_skipped (tn s : String) (ps1 ps2 : List (String × String))
    (ts1 ts2 : List (String × List (String × String))) :
    validate_tests (ts1 ++ (tn, ps1 ++ ("bbox", s) :: ps2) :: ts2) =
      validate_tests (ts1 ++ (tn, ps1 ++ ps2) :: ts2) ∧
    validate_tests [(tn, [("bbox", s)])] = .ok () := by
  constructor
  · induction ts1 with
    | nil => simp [validate_tests, validate_params_bbox_skip]
    | cons tp rest ih =>
      obtain ⟨n2, ps⟩ := tp
      simp only [List.cons_append, validate_tests]
      cases hp : validate_params ps <;> simp [ih]
  · simp [validate_tests, validate_params]

/-- C4 witness: padding the box `(-179.8, -5, 10, 5)` by `0.5` clamps the
west edge to `-180` (not `-180.3`) and pads the other three edges. -/
theorem c4_pad_formula_and_monotone_witness :
    (0 : ℚ) < 0.5 ∧
    apply_bbox_pad ⟨-179.8, -5, 10, 5⟩ 0.5 = ⟨-180, -5.5, 10.5, 5.5⟩ := by
  refine ⟨by norm_num, ?_⟩
  have h := c4_pad_formula_and_monotone ⟨-179.8, -5, 10, 5⟩ 0.5
    (by norm_num) (by norm_num) (by norm_num) (by norm_num) (by norm_num)
  rw [h.1]
  simp only [Bbox.mk.injEq]
  norm_num

/-! ### Variable resolution and the subset loop (C1, C3) -/

theorem var2var_in_file_eq_none (cfg : CreatorCfg) (var : String)
    (h : ∀ p ∈ cfg, p.2.vars.lookup var = none) :
    var2var_in_file cfg var = none := by
  induction cfg with
  | nil => rfl
  | cons p rest ih =>
    obtain ⟨n, d⟩ := p
    have hd : d.vars.lookup var = none := h (n, d) (List.mem_cons_self _ _)
    simp only [var2var_in_file, hd]
    exact ih (fun q hq => h q (List.mem_cons_of_mem _ hq))

/-- C1: over a region whose daily-interpolated subset is all-NaN for every
bounding box (`np.nansum` stays `0` after every padding), the
`while np.nansum(subset) == 0` loop of `_get_subset` pads the box on every
iteration and never returns: the loop is unbounded, contradicting the
required "at least one padding iteration and terminate (bounded)". -/
theorem c1_subset_loop_unbounded (n : Nat) (b : Bbox) :
    nansum [(none : Option ℚ)] = 0 ∧
    get_subset_fuel (fun _ => [(none : Option ℚ)]) (1/2) (n + 1) b =
      get_subset_fuel (fun _ => [(none : Option ℚ)]) (1/2) n (apply_bbox_pad b (1/2)) ∧
    get_subset_fuel (fun _ => [(none : Option ℚ)]) (1/2) n b = none := by
  refine ⟨rfl, ?_, ?_⟩
  · simp [get_subset_fuel, nansum, notNaN]
  · induction n generalizing b with
    | zero => rfl
    | succ k ih =>
      simp only [get_subset_fuel, nansum, notNaN]
      simpa using ih (apply_bbox_pad b (1/2))

/-- C3 counterexample: with one registered dataset `clim` declaring only
`temp`, resolving the unknown name `salinity` does not raise any
`VariableResolutionError`: `_var2var_in_file` silently returns `None`, and
`var2dataset` fails with the unrelated `TypeError` raised by unpacking
`None`. -/
theorem c3_counterexample_unknown_var_type_error :
    var2var_in_file [("clim", { file_path := "c.nc", vars := [("temp", "TEMP")] })]
      "salinity" = none ∧
    var2dataset
      { config := [("clim", { file_path := "c.nc", vars := [("temp", "TEMP")] })],
        datasets := [("clim", { times := [⟨2017, 1, 1⟩] })],
        dataset_years := [("clim", 2017)] } "salinity"
      = .error (.typeError "cannot unpack non-iterable NoneType object") ∧
    is_var_resolution_error
      (var2dataset
        { config := [("clim", { file_path := "c.nc", vars := [("temp", "TEMP")] })],
          datasets := [("clim", { times := [⟨2017, 1, 1⟩] })],
          dataset_years := [("clim", 2017)] } "salinity") = false :=
  ⟨rfl, rfl, rfl⟩

/-- C3 (amended): for every logical variable name not present in any
registered dataset's variable map, `_var2var_in_file` returns `None`
(no error at all), and `var2dataset` fails with the `TypeError` raised by
unpacking `None` — not with a `VariableResolutionError`, which no code
path constructs. -/
theorem c3_unknown_variable_resolution (c : Creator) (var : String)
    (h : ∀ p ∈ c.config, p.2.vars.lookup var = none) :
    var2var_in_file c.config var = none ∧
    var2dataset c var = .error (.typeError "cannot unpack non-iterable NoneType object") ∧
    is_var_resolution_error (var2dataset c var) = false := by
  have hv : var2var_in_file c.config var = none := var2var_in_file_eq_none c.config var h
  refine ⟨hv, ?_, ?_⟩ <;> simp [var2dataset, hv, is_var_resolution_error]

/-- C3 witness: the amended statement at the concrete registry of the
counterexample. -/
theorem c3_unknown_variable_resolution_witness :
    var2var_in_file [("clim", { file_path := "c.nc", vars := [("temp", "TEMP")] })]
      "o2" = none :=
  (c3_unknown_variable_resolution
    { config := [("clim", { file_path := "c.nc", vars := [("temp", "TEMP")] })],
      datasets := [("clim", { times := [⟨2017, 1, 1⟩] })],
      dataset_years := [("clim", 2017)] } "o2"
    (by intro p hp; simp at hp; simp [hp, List.lookup])).1

/-! ### Statistics (C8) -/

/-- C8: the stats snapshot reduces over non-NaN entries only (prepending a
NaN changes nothing); an all-NaN subset yields the four NaN sentinels
without failing; and on `[1, 2, 3, 4]` it yields min `1`, max `4`, mean
`5/2`, and std `√(5/4)`, which lies strictly between `1.118` and `1.119`. -/
theorem c8_stats_snapshot (xs : NArr) :
    get_stats ((none : Option ℚ) :: xs) = get_stats xs ∧
    (notNaN xs = [] → get_stats xs = ⟨none, none, none, none⟩) ∧
    get_stats [some 1, some 2, some 3, some 4] =
      ⟨some 1, some 4, some (5/2), some (Real.sqrt ((5 : ℝ)/4))⟩ ∧
    (1.118 : ℝ) < Real.sqrt ((5 : ℝ)/4) ∧ Real.sqrt ((5 : ℝ)/4) < 1.119 := by
  refine ⟨?_, ?_, ?_, ?_, ?_⟩
  · have hn : notNaN ((none : Option ℚ) :: xs) = notNaN xs := by
      simp [notNaN]
    simp [get_stats, nanmin, nanmax, nanmean, nanvar, nanstd, hn]
  · intro h
    simp [get_stats, nanmin, nanmax, nanmean, nanvar, nanstd, h]
  · have hvar : nanvar [some 1, some 2, some 3, some 4] = some (5/4) := by
      simp [nanvar, notNaN]
      norm_num
    have hstd : nanstd [some 1, some 2, some 3, some 4] = some (Real.sqrt ((5 : ℝ)/4)) := by
      rw [nanstd, hvar]
      show some (Real.sqrt ((5/4 : ℚ) : ℝ)) = some (Real.sqrt ((5 : ℝ)/4))
      norm_num
    have hmean : nanmean [some 1, some 2, some 3, some 4] = some (5/2) := by
      simp [nanmean, notNaN]
      norm_num
    have hmin : nanmin [some 1, some 2, some 3, some 4] = some 1 := by
      simp [nanmin, notNaN, List.min?]
    have hmax : nanmax [some 1, some 2, some 3, some 4] = some 4 := by
      simp [nanmax, notNaN, List.max?]
      norm_num
    simp [get_stats, hmin, hmax, hmean, hstd]
  · rw [show ((1.118 : ℝ)) = (1118 / 1000 : ℝ) by norm_num]
    refine (Real.lt_sqrt (by norm_num)).2 ?_
    norm_num
  · rw [show ((1.119 : ℝ)) = (1119 / 1000 : ℝ) by norm_num]
    refine (Real.sqrt_lt' (by norm_num)).2 ?_
    norm_num

/-- C8 witness: an all-NaN subset produces the four NaN sentinels. -/
theorem c8_stats_snapshot_witness :
    get_stats [(none : Option ℚ), none] = ⟨none, none, none, none⟩ :=
  (c8_stats_snapshot [none, none]).2.1 rfl

/-! ### Time-range construction (C6) -/

theorem determine_years_lookup (datasets : List (String × LoadedDataset))
    (ys : List (String × Nat)) (n : String) (ds : LoadedDataset) (t0 : Date)
    (h : determine_dataset_years datasets = .ok ys)
    (hl : datasets.lookup n = some ds) (h0 : ds.times.head? = some t0) :
    ys.lookup n = some t0.year := by
  induction datasets generalizing ys with
  | nil => simp [List.lookup] at hl
  | cons p rest ih =>
    obtain ⟨m, d⟩ := p
    simp only [determine_dataset_years] at h
    cases hh : d.times.head? with
    | none =>
      rw [hh] at h
      cases h
    | some t =>
      rw [hh] at h
      cases hr : determine_dataset_years rest with
      | error e =>
        rw [hr] at h
        cases h
      | ok ys2 =>
        rw [hr] at h
        cases h
        by_cases hnm : n = m
        · subst hnm
          simp [List.lookup] at hl ⊢
          rw [← hl] at h0
          rw [h0] at hh
          cases hh
          rfl
        · have hbe : (n == m) = false := beq_eq_false_iff_ne.mpr hnm
          simp only [List.lookup, hbe] at hl ⊢
          exact ih ys2 hr hl

/-- C6: the time slice used to query the climatology keeps the deployment's
month and day but replaces the year with the owning dataset's reference
year (the year of the dataset's first time coordinate, as recorded by
`_determine_dataset_years`); and under the label-slice semantics the slice
is inclusive of its end label (a time equal to the end bound is selected),
although the deployment end is exclusive by convention. -/
theorem c6_time_range_year_substitution (c : Creator) (var : String)
    (startD endD : Date) (name fvar : String) (ds : LoadedDataset) (t0 : Date)
    (hres : var2var_in_file c.config var = some (fvar, name))
    (hyears : determine_dataset_years c.datasets = .ok c.dataset_years)
    (hds : c.datasets.lookup name = some ds)
    (ht0 : ds.times.head? = some t0) :
    get_time_range c var (startD, endD) =
      .ok (⟨t0.year, startD.month, startD.day⟩, ⟨t0.year, endD.month, endD.day⟩) ∧
    (∀ (times : List Date) (t : Date),
      t ∈ sel_time_slice times
          (⟨t0.year, startD.month, startD.day⟩, ⟨t0.year, endD.month, endD.day⟩) ↔
        t ∈ times ∧ dateLe ⟨t0.year, startD.month, startD.day⟩ t = true ∧
          dateLe t ⟨t0.year, endD.month, endD.day⟩ = true) := by
  constructor
  · have hy : c.dataset_years.lookup name = some t0.year :=
      determine_years_lookup c.datasets c.dataset_years name ds t0 hyears hds ht0
    simp [get_time_range, hres, hy]
  · intro times t
    simp [sel_time_slice, List.mem_filter]

/-- C6 witness: a deployment `2020-06-02 .. 2020-08-03` against a dataset
whose first time coordinate is in 2017 queries `2017-06-02 .. 2017-08-03`,
and the end date itself is selected by the slice. -/
theorem c6_time_range_year_substitution_witness :
    get_time_range
      { config := [("clim", { file_path := "c.nc", vars := [("temp", "TEMP")] })],
        datasets := [("clim", { times := [⟨2017, 1, 1⟩, ⟨2017, 8, 3⟩] })],
        dataset_years := [("clim", 2017)] } "temp" (⟨2020, 6, 2⟩, ⟨2020, 8, 3⟩) =
      .ok (⟨2017, 6, 2⟩, ⟨2017, 8, 3⟩) ∧
    (⟨2017, 8, 3⟩ : Date) ∈ sel_time_slice [⟨2017, 1, 1⟩, ⟨2017, 8, 3⟩]
      (⟨2017, 6, 2⟩, ⟨2017, 8, 3⟩) := by
  have h := c6_time_range_year_substitution
    { config := [("clim", { file_path := "c.nc", vars := [("temp", "TEMP")] })],
      datasets := [("clim", { times := [⟨2017, 1, 1⟩, ⟨2017, 8, 3⟩] })],
      dataset_years := [("clim", 2017)] } "temp" ⟨2020, 6, 2⟩ ⟨2020, 8, 3⟩
    "clim" "TEMP" { times := [⟨2017, 1, 1⟩, ⟨2017, 8, 3⟩] } ⟨2017, 1, 1⟩
    rfl rfl rfl rfl
  refine ⟨h.1, ?_⟩
  exact (h.2 [⟨2017, 1, 1⟩, ⟨2017, 8, 3⟩] ⟨2017, 8, 3⟩).2
    ⟨by decide, by decide, by decide⟩

/-! ### Threshold assembly dispatch (C5) -/

/-- C5: `_create_test_section` dispatches on the exact test-name string:
`spike_test` yields the two thresholds, `location_test` passes the bbox
through unevaluated, `rate_of_change_test` yields one threshold,
`flat_line_test` yields two thresholds and a tolerance, and every other
name yields the span shape `{suspect_span: [...], fail_span: [...]}` — each
numeric field being `eval_fx` applied to the corresponding formula and the
stats snapshot. -/
theorem c5_test_section_dispatch {σ : Type} (evalFx : String → σ → ℚ)
    (stats : σ) (params : List (String × ParamVal)) :
    (∀ s1 s2 : String,
      params.lookup "suspect_threshold" = some (.str s1) →
      params.lookup "fail_threshold" = some (.str s2) →
      create_test_section evalFx "spike_test" params stats =
        .ok [("suspect_threshold", .num (evalFx s1 stats)),
             ("fail_threshold", .num (evalFx s2 stats))]) ∧
    (∀ b : ParamVal, params.lookup "bbox" = some b →
      create_test_section evalFx "location_test" params stats = .ok [("bbox", .raw b)]) ∧
    (∀ s : String, params.lookup "threshold" = some (.str s) →
      create_test_section evalFx "rate_of_change_test" params stats =
        .ok [("threshold", .num (evalFx s stats))]) ∧
    (∀ s1 s2 s3 : String,
      params.lookup "suspect_threshold" = some (.str s1) →
      params.lookup "fail_threshold" = some (.str s2) →
      params.lookup "tolerance" = some (.str s3) →
      create_test_section evalFx "flat_line_test" params stats =
        .ok [("suspect_threshold", .num (evalFx s1 stats)),
             ("fail_threshold", .num (evalFx s2 stats)),
             ("tolerance", .num (evalFx s3 stats))]) ∧
    (∀ tn : String, tn ≠ "spike_test" → tn ≠ "location_test" →
      tn ≠ "rate_of_change_test" → tn ≠ "flat_line_test" →
      ∀ s1 s2 s3 s4 : String,
        params.lookup "suspect_min" = some (.str s1) →
        params.lookup "suspect_max" = some (.str s2) →
        params.lookup "fail_min" = some (.str s3) →
        params.lookup "fail_max" = some (.str s4) →
        create_test_section evalFx tn params stats =
          .ok [("suspect_span", .nums [evalFx s1 stats, evalFx s2 stats]),
               ("fail_span", .nums [evalFx s3 stats, evalFx s4 stats])]) := by
  refine ⟨?_, ?_, ?_, ?_, ?_⟩
  · intro s1 s2 h1 h2
    simp only [create_test_section, if_pos, create_spike_section, get_test_param, h1, h2]
    rfl
  · intro b hb
    simp only [create_test_section, if_pos, if_neg, create_location_section, get_test_param, hb]
    rfl
  · intro s hs
    simp only [create_test_section, create_rate_of_change_section, get_test_param, hs]
    rfl
  · intro s1 s2 s3 h1 h2 h3
    simp only [create_test_section, create_flat_line_section, get_test_param, h1, h2, h3]
    rfl
  · intro tn hn1 hn2 hn3 hn4 s1 s2 s3 s4 h1 h2 h3 h4
    simp only [create_test_section, if_neg hn1, if_neg hn2, if_neg hn3, if_neg hn4,
      create_span_section, get_test_param, h1, h2, h3, h4]
    rfl

/-- C5 witness: concrete dispatch of a spike, a location, and an
unrecognized (span-shaped) test over one parameter dict holding all keys
(`eval_fx` instantiated with the string-length function). -/
theorem c5_test_section_dispatch_witness :
    create_test_section (fun s (_ : Unit) => (s.length : ℚ)) "spike_test"
      [("suspect_threshold", .str "a"), ("fail_threshold", .str "bb"),
       ("bbox", .arr [1, 2, 3, 4]), ("threshold", .str "c"),
       ("tolerance", .str "d"), ("suspect_min", .str "e"),
       ("suspect_max", .str "ff"), ("fail_min", .str "g"), ("fail_max", .str "hh")] () =
      .ok [("suspect_threshold", .num 1), ("fail_threshold", .num 2)] ∧
    create_test_section (fun s (_ : Unit) => (s.length : ℚ)) "location_test"
      [("suspect_threshold", .str "a"), ("fail_threshold", .str "bb"),
       ("bbox", .arr [1, 2, 3, 4]), ("threshold", .str "c"),
       ("tolerance", .str "d"), ("suspect_min", .str "e"),
       ("suspect_max", .str "ff"), ("fail_min", .str "g"), ("fail_max", .str "hh")] () =
      .ok [("bbox", .raw (.arr [1, 2, 3, 4]))] ∧
    create_test_section (fun s (_ : Unit) => (s.length : ℚ)) "gross_range_test"
      [("suspect_threshold", .str "a"), ("fail_threshold", .str "bb"),
       ("bbox", .arr [1, 2, 3, 4]), ("threshold", .str "c"),
       ("tolerance", .str "d"), ("suspect_min", .str "e"),
       ("suspect_max", .str "ff"), ("fail_min", .str "g"), ("fail_max", .str "hh")] () =
      .ok [("suspect_span", .nums [1, 2]), ("fail_span", .nums [1, 2])] := by
  refine ⟨?_, ?_, ?_⟩
  · exact (c5_test_section_dispatch (fun s (_ : Unit) => (s.length : ℚ)) () _).1
      "a" "bb" rfl rfl
  · exact (c5_test_section_dispatch (fun s (_ : Unit) => (s.length : ℚ)) () _).2.1
      (.arr [1, 2, 3, 4]) rfl
  · exact (c5_test_section_dispatch (fun s (_ : Unit) => (s.length : ℚ)) () _).2.2.2.2
      "gross_range_test" (by decide) (by decide) (by decide) (by decide)
      "e" "ff" "g" "hh" rfl rfl rfl rfl

/-! ### `to_json` (C10) -/

/-- C10 counterexample: `out_file` need not be `None` for the
`json.dumps` branch — the empty string is falsy in Python, so
`to_json(cfg, "")` returns the JSON text instead of failing. -/
theorem c10_counterexample_empty_out_file :
    to_json (.pydict [("temp", .pynum 1)]) (some "") =
      (.ok (some "\x7b\"temp\": 1\x7d"), []) := rfl

/-- C10 (amended): without a truthy `out_file`, `to_json` returns
`json.dumps(qc_config)`; with any truthy (non-empty) `out_file` it raises
`TypeError` — `json.dump(outfile, qc_config)` has its arguments swapped, so
the file object is the value being serialized — and nothing is ever
written to the file. -/
theorem c10_to_json_swapped_dump (qc_config : PyVal) (path s : String) :
    (path ≠ "" → to_json qc_config (some path) =
      (.error (.typeError "Object of type TextIOWrapper is not JSON serializable"), [])) ∧
    (dumps qc_config = .ok s → to_json qc_config none = (.ok (some s), [])) := by
  constructor
  · intro hp
    simp [to_json, hp, json_dump, dumps]
  · intro hd
    simp [to_json, hd]

/-- C10 witness: writing to `out.json` fails with the serialization
`TypeError` and writes nothing; serializing without an out-file returns
the JSON text. -/
theorem c10_to_json_swapped_dump_witness :
    to_json (.pydict [("temp", .pynum 1)]) (some "out.json") =
      (.error (.typeError "Object of type TextIOWrapper is not JSON serializable"), []) ∧
    to_json (.pydict [("temp", .pynum 1)]) none =
      (.ok (some "\x7b\"temp\": 1\x7d"), []) :=
  ⟨(c10_to_json_swapped_dump (.pydict [("temp", .pynum 1)]) "out.json" "").1 (by decide),
   (c10_to_json_swapped_dump (.pydict [("temp", .pynum 1)]) "x"
      "\x7b\"temp\": 1\x7d").2 rfl⟩

end IoosQC
